import Mathlib

/-!
Shallow embedding of the `error_processing` repository (Rust, two files:
`src/app.rs` and `src/main.rs`) together with theorems settling the
specification claims about it.

The filesystem visible to the program is modelled as a `World`; the two
standard-library calls used by the code (`File::open` and
`Read::read_to_string`) are modelled as explicit state-passing primitives.
Panics raised by `.expect` are modelled as the `Except` error channel, and
`std::panic::catch_unwind` in `main` as a `match` on that channel.  Bytes are
natural numbers below 256; UTF-8 decoding (performed by `read_to_string`,
which fails on invalid UTF-8) is implemented concretely below.
-/

/-- A continuation byte of a UTF-8 sequence: 0x80 to 0xBF. -/
def isCont (b : Nat) : Bool := decide (0x80 ≤ b ∧ b < 0xC0)

/-- Decode a byte list as UTF-8 into the list of decoded characters, or
`none` when the bytes are not valid UTF-8.  This mirrors the validation that
the Rust standard library performs in `read_to_string` (shortest-form
encodings only, no surrogates, code points at most 0x10FFFF). -/
def utf8DecodeChars : List Nat → Option (List Char)
  | [] => some []
  | b1 :: rest =>
    if b1 < 0x80 then
      (utf8DecodeChars rest).map fun cs => Char.ofNat b1 :: cs
    else if b1 < 0xC2 then
      none
    else if b1 < 0xE0 then
      match rest with
      | b2 :: rest2 =>
        if isCont b2 then
          (utf8DecodeChars rest2).map fun cs =>
            Char.ofNat ((b1 - 0xC0) * 0x40 + (b2 - 0x80)) :: cs
        else none
      | [] => none
    else if b1 < 0xF0 then
      match rest with
      | b2 :: b3 :: rest3 =>
        if (if b1 = 0xE0 then decide (0xA0 ≤ b2 ∧ b2 < 0xC0)
            else if b1 = 0xED then decide (0x80 ≤ b2 ∧ b2 < 0xA0)
            else isCont b2) && isCont b3 then
          (utf8DecodeChars rest3).map fun cs =>
            Char.ofNat ((b1 - 0xE0) * 0x1000 + (b2 - 0x80) * 0x40 + (b3 - 0x80)) :: cs
        else none
      | _ => none
    else if b1 < 0xF5 then
      match rest with
      | b2 :: b3 :: b4 :: rest4 =>
        if (if b1 = 0xF0 then decide (0x90 ≤ b2 ∧ b2 < 0xC0)
            else if b1 = 0xF4 then decide (0x80 ≤ b2 ∧ b2 < 0x90)
            else isCont b2) && isCont b3 && isCont b4 then
          (utf8DecodeChars rest4).map fun cs =>
            Char.ofNat ((b1 - 0xF0) * 0x40000 + (b2 - 0x80) * 0x1000 +
              (b3 - 0x80) * 0x40 + (b4 - 0x80)) :: cs
        else none
      | _ => none
    else none

/-- Decode a byte list as UTF-8 text, or `none` when it is not valid UTF-8. -/
def utf8Decode? (bytes : List Nat) : Option String :=
  (utf8DecodeChars bytes).map String.mk

/-- The state of one file as visible to the program: its byte contents, and
whether the device-level read of those bytes succeeds (`readOk = false`
models an I/O error in the middle of reading an already-opened file). -/
structure FileData where
  bytes : List Nat
  readOk : Bool
deriving DecidableEq

/-- The filesystem state visible to the program.  `files p = none` means
opening path `p` fails (missing file, permission denied, or otherwise
invalid path); `files p = some fd` means opening succeeds and yields a
handle on `fd`. -/
structure World where
  files : String → Option FileData

/-- Model of `File::open`: look the path up in the filesystem; the world is
not modified (opening a file for reading writes nothing). -/
def fileOpen (w : World) (file_path : String) : Option FileData × World :=
  (w.files file_path, w)

/-- Reasons `read_to_string` can fail on an already-opened file. -/
inductive ReadErr where
  | ioError
  | invalidUtf8
deriving DecidableEq

/-- Model of `Read::read_to_string` on an opened file: fails when the
device-level read fails or when the bytes are not valid UTF-8; otherwise
returns the decoded text.  The world is not modified (reading writes
nothing). -/
def readToString (w : World) (fd : FileData) : Except ReadErr String × World :=
  (if fd.readOk then
    match utf8Decode? fd.bytes with
    | some s => Except.ok s
    | none => Except.error ReadErr.invalidUtf8
   else Except.error ReadErr.ioError, w)

/-- The two panics `read_config` can raise, one per `.expect` call in
`src/app.rs`. -/
inductive Panic where
  | openFailure
  | readFailure
deriving DecidableEq

/-- The message attached to each panic by `.expect` in `src/app.rs`. -/
def Panic.message : Panic → String
  | .openFailure => "Failed to open config file"
  | .readFailure => "Failed to read config file"

/-- Embedding of `read_config` from `src/app.rs`: open the file (panicking
with the open-failure message when that fails), read it to a string
(panicking with the read-failure message when that fails), and return the
contents.  The panic is modelled as the `Except` error channel; the
resulting world is threaded through explicitly. -/
def read_config (w : World) (file_path : String) : Except Panic String × World :=
  match fileOpen w file_path with
  | (none, w1) => (Except.error Panic.openFailure, w1)
  | (some file, w1) =>
    match readToString w1 file with
    | (Except.ok contents, w2) => (Except.ok contents, w2)
    | (Except.error _, w2) => (Except.error Panic.readFailure, w2)

/-- The filesystem operations `read_config` attempts, in order: it tries one
open, and only when the open succeeds does it try one read.  This mirrors
the straight-line control flow of `src/app.rs` (no loop, no retry). -/
inductive FsOp where
  | openAttempt (path : String)
  | readAttempt (path : String)
deriving DecidableEq

/-- The trace of filesystem operations attempted by one call of
`read_config`, following the control flow of `src/app.rs`. -/
def read_config_ops (w : World) (file_path : String) : List FsOp :=
  match fileOpen w file_path with
  | (none, _) => [FsOp.openAttempt file_path]
  | (some _, _) => [FsOp.openAttempt file_path, FsOp.readAttempt file_path]

/-- Outcome of one run of the process: either a normal termination carrying
the lines printed to standard output, the process exit code and the final
world, or an abnormal termination by an uncaught panic. -/
inductive Outcome where
  | normal (stdout : List String) (code : Nat) (w : World)
  | panicked (stdout : List String) (w : World)

/-- The lines printed to standard output, one entry per `println!`. -/
def Outcome.stdout : Outcome → List String
  | .normal out _ _ => out
  | .panicked out _ => out

/-- The process exit code: 0 for a normal return from `main`, 101 for an
uncaught panic (the Rust runtime default). -/
def Outcome.exitCode : Outcome → Nat
  | .normal _ c _ => c
  | .panicked _ _ => 101

/-- Whether the run terminated normally rather than by an uncaught panic. -/
def Outcome.isNormal : Outcome → Bool
  | .normal _ _ _ => true
  | .panicked _ _ => false

/-- The closure passed to `std::panic::catch_unwind` in `src/main.rs`: call
`read_config` on the hard-coded path and print the contents under the
header.  On success it returns the lines it printed; a panic from
`read_config` propagates (carrying no printed lines, since the single
`println!` comes after the call). -/
def mainClosure (w : World) : Except Panic (List String) × World :=
  match read_config w "config.txt" with
  | (Except.ok config_contents, w1) =>
    (Except.ok ["Config Contents:\n" ++ config_contents], w1)
  | (Except.error p, w1) => (Except.error p, w1)

/-- Embedding of `main` from `src/main.rs` (named `mainRun` because Lean reserves the name `main`): run the closure under
`catch_unwind`; on `Ok` print the success confirmation, on `Err` print the
generic failure message.  Both arms fall off the end of `main`, so the
process terminates normally with exit code 0 either way. -/
def mainRun (w : World) : Outcome :=
  match mainClosure w with
  | (Except.ok out, w1) =>
    Outcome.normal (out ++ ["Config file read successfully."]) 0 w1
  | (Except.error _, w1) =>
    Outcome.normal ["An error occurred while reading the config file."] 0 w1

/-- The two terminal messages `main` can print last. -/
def isTerminalMsg (s : String) : Bool :=
  s == "Config file read successfully." ||
    s == "An error occurred while reading the config file."

/-! ### Concrete filesystem states used by the witnesses -/

/-- A filesystem where `config.txt` holds the five ASCII bytes of `hello`
and reads succeed. -/
def helloWorld : World :=
  ⟨fun q => if q = "config.txt" then some ⟨[104, 101, 108, 108, 111], true⟩ else none⟩

/-- A filesystem where `config.txt` exists and is empty. -/
def emptyFileWorld : World :=
  ⟨fun q => if q = "config.txt" then some ⟨[], true⟩ else none⟩

/-- A filesystem with no files at all: every open fails. -/
def missingWorld : World := ⟨fun _ => none⟩

/-- A filesystem where `config.txt` holds two bytes that are not valid
UTF-8 (0xFF may not appear anywhere in UTF-8 text). -/
def binaryWorld : World :=
  ⟨fun q => if q = "config.txt" then some ⟨[0xFF, 0xFE], true⟩ else none⟩

/-! ### Helper lemmas shared by the claim theorems -/

/-- Every branch of `read_config` returns the world it was given: the call
only reads. -/
theorem read_config_snd (w : World) (file_path : String) :
    (read_config w file_path).2 = w := by
  unfold read_config fileOpen readToString
  cases w.files file_path with
  | none => rfl
  | some fd =>
    cases hb : fd.readOk with
    | false => simp [hb]
    | true => cases hd : utf8Decode? fd.bytes <;> simp [hb, hd]

/-- A call of `read_config` equals its result value paired with the
unchanged world. -/
theorem read_config_pair (w : World) (file_path : String) :
    read_config w file_path = ((read_config w file_path).1, w) :=
  Prod.ext rfl (read_config_snd w file_path)

/-- When `read_config` fails, `mainRun` prints exactly the generic failure
message and terminates normally with exit code 0. -/
theorem mainRun_error (w : World) (p : Panic)
    (h : (read_config w "config.txt").1 = Except.error p) :
    mainRun w =
      Outcome.normal ["An error occurred while reading the config file."] 0 w := by
  have h2 : read_config w "config.txt" = (Except.error p, w) := by
    rw [read_config_pair w "config.txt", h]
  unfold mainRun mainClosure
  rw [h2]

/-- When `read_config` succeeds with contents `c`, `mainRun` prints the
header line with `c` and then the success confirmation, and terminates
normally with exit code 0. -/
theorem mainRun_ok (w : World) (c : String)
    (h : (read_config w "config.txt").1 = Except.ok c) :
    mainRun w = Outcome.normal
      ["Config Contents:\n" ++ c, "Config file read successfully."] 0 w := by
  have h2 : read_config w "config.txt" = (Except.ok c, w) := by
    rw [read_config_pair w "config.txt", h]
  unfold mainRun mainClosure
  rw [h2]
  rfl

/-- Two strings differ when the second does not begin with the characters
of the first: `a ++ c` can never equal such an `m`. -/
theorem append_ne_of_take_ne (a c m : String)
    (h : m.data.take a.data.length ≠ a.data) : a ++ c ≠ m := by
  intro he
  apply h
  rw [← he, String.data_append, List.take_left]

/-- The header line printed on success is never one of the two terminal
messages, whatever the file contents are. -/
theorem header_not_terminal (c : String) :
    isTerminalMsg ("Config Contents:\n" ++ c) = false := by
  unfold isTerminalMsg
  rw [Bool.or_eq_false_iff]
  refine ⟨?_, ?_⟩ <;>
  · rw [beq_eq_false_iff_ne]
    exact append_ne_of_take_ne _ _ _ (by decide)

/-! ### Claim theorems -/

/-- Claim C1: for every file that exists and is readable as text,
`read_config` applied to its path returns exactly the contents of the file
decoded as text, in the order written to the file, unchanged; this includes
the empty file, for which it returns the empty string (the witness below
instantiates the theorem at the empty file). -/
theorem read_config_roundtrip (w : World) (file_path : String)
    (fd : FileData) (s : String)
    (hopen : w.files file_path = some fd) (hread : fd.readOk = true)
    (hdec : utf8Decode? fd.bytes = some s) :
    (read_config w file_path).1 = Except.ok s := by
  simp [read_config, fileOpen, readToString, hopen, hread, hdec]

/-- Witness for C1: on a filesystem whose `config.txt` exists and is empty,
`read_config` returns the empty string. -/
theorem read_config_roundtrip_witness :
    (read_config emptyFileWorld "config.txt").1 = Except.ok "" :=
  read_config_roundtrip emptyFileWorld "config.txt" ⟨[], true⟩ "" rfl rfl rfl

/-- Claim C2: on every failure of the Config Loader, success is
all-or-nothing: no content value is returned to the caller, and the Entry
Point prints only the generic failure message — in particular no line
beginning with the `Config Contents:` header, whatever the would-be
contents. -/
theorem failure_all_or_nothing (w : World) (p : Panic)
    (h : (read_config w "config.txt").1 = Except.error p) :
    (∀ s : String, (read_config w "config.txt").1 ≠ Except.ok s) ∧
    (mainRun w).stdout = ["An error occurred while reading the config file."] ∧
    ∀ c : String, ("Config Contents:\n" ++ c) ∉ (mainRun w).stdout := by
  refine ⟨?_, ?_, ?_⟩
  · intro s hs
    rw [h] at hs
    exact Except.noConfusion hs
  · rw [mainRun_error w p h]
    rfl
  · intro c hc
    rw [mainRun_error w p h] at hc
    simp only [Outcome.stdout, List.mem_singleton] at hc
    exact append_ne_of_take_ne _ _ _ (by decide) hc

/-- Witness for C2: with no file present, `read_config` returns no content,
standard output is exactly the generic failure message, and no header line
appears. -/
theorem failure_all_or_nothing_witness :
    (read_config missingWorld "config.txt").1 ≠ Except.ok "hello=world" ∧
    (mainRun missingWorld).stdout =
      ["An error occurred while reading the config file."] ∧
    ("Config Contents:\n" ++ "hello=world") ∉ (mainRun missingWorld).stdout :=
  ⟨(failure_all_or_nothing missingWorld Panic.openFailure rfl).1 "hello=world",
   (failure_all_or_nothing missingWorld Panic.openFailure rfl).2.1,
   (failure_all_or_nothing missingWorld Panic.openFailure rfl).2.2 "hello=world"⟩

/-- Claim C3: `read_config` surfaces every failure immediately with the kind
matching the failing phase — an open failure carries the open-phase kind and
a failure during reading or decoding carries the read-phase kind — and it
never retries: its operation trace is one open attempt, followed by at most
one read attempt. -/
theorem read_config_failure_kinds (w : World) (file_path : String) :
    (w.files file_path = none →
      (read_config w file_path).1 = Except.error Panic.openFailure) ∧
    (∀ fd, w.files file_path = some fd →
      (fd.readOk = false ∨ utf8Decode? fd.bytes = none) →
      (read_config w file_path).1 = Except.error Panic.readFailure) ∧
    (read_config_ops w file_path = [FsOp.openAttempt file_path] ∨
      read_config_ops w file_path =
        [FsOp.openAttempt file_path, FsOp.readAttempt file_path]) := by
  refine ⟨?_, ?_, ?_⟩
  · intro h
    simp [read_config, fileOpen, h]
  · intro fd hfd hbad
    cases hro : fd.readOk with
    | false => simp [read_config, fileOpen, readToString, hfd, hro]
    | true =>
      cases hbad with
      | inl hb => rw [hro] at hb; exact Bool.noConfusion hb
      | inr hb => simp [read_config, fileOpen, readToString, hfd, hro, hb]
  · unfold read_config_ops fileOpen
    cases w.files file_path with
    | none => exact Or.inl rfl
    | some fd => exact Or.inr rfl

/-- Witness for C3: a missing file fails with the open kind, and an existing
file holding invalid UTF-8 fails with the read kind. -/
theorem read_config_failure_kinds_witness :
    (read_config missingWorld "config.txt").1 =
      Except.error Panic.openFailure ∧
    (read_config binaryWorld "config.txt").1 =
      Except.error Panic.readFailure :=
  ⟨(read_config_failure_kinds missingWorld "config.txt").1 rfl,
   (read_config_failure_kinds binaryWorld "config.txt").2.1
     ⟨[0xFF, 0xFE], true⟩ rfl (Or.inr rfl)⟩

/-- Claim C4: whenever the Config Loader succeeds with content `c`, the
Entry Point prints the `Config Contents:` header and a newline, then `c`,
then the success confirmation, in that order, and terminates normally. -/
theorem success_prints_contents_then_confirmation (w : World) (c : String)
    (h : (read_config w "config.txt").1 = Except.ok c) :
    mainRun w = Outcome.normal
      ["Config Contents:\n" ++ c, "Config file read successfully."] 0 w :=
  mainRun_ok w c h

/-- Witness for C4: with `config.txt` holding the bytes of `hello`, the run
prints the header line with `hello` and then the confirmation. -/
theorem success_prints_contents_then_confirmation_witness :
    mainRun helloWorld = Outcome.normal
      ["Config Contents:\n" ++ "hello", "Config file read successfully."]
      0 helloWorld :=
  success_prints_contents_then_confirmation helloWorld "hello" rfl

/-- Claim C5: whenever the Config Loader fails, whatever the failure kind,
the Entry Point prints exactly the single undifferentiated failure message;
the cause is not surfaced in the output. -/
theorem failure_prints_generic_message (w : World) (p : Panic)
    (h : (read_config w "config.txt").1 = Except.error p) :
    mainRun w = Outcome.normal
      ["An error occurred while reading the config file."] 0 w :=
  mainRun_error w p h

/-- Witness for C5: with no file present the run prints exactly the generic
failure message. -/
theorem failure_prints_generic_message_witness :
    mainRun missingWorld = Outcome.normal
      ["An error occurred while reading the config file."] 0 missingWorld :=
  failure_prints_generic_message missingWorld Panic.openFailure rfl

/-- Claim C6: every run of the Entry Point terminates normally with exit
code 0, whether the Config Loader succeeds or fails: the panic is absorbed
by the guarded region and never escalates past `main`. -/
theorem mainRun_exits_normally_zero (w : World) :
    (mainRun w).isNormal = true ∧ (mainRun w).exitCode = 0 := by
  cases hr : (read_config w "config.txt").1 with
  | error p => rw [mainRun_error w p hr]; exact ⟨rfl, rfl⟩
  | ok c => rw [mainRun_ok w c hr]; exact ⟨rfl, rfl⟩

/-- Claim C7: over a fixed filesystem state, reading the same path twice in
succession gives the same result: the second call, run on the state left by
the first, returns exactly what the first returned. -/
theorem read_config_idempotent (w : World) (file_path : String) :
    read_config (read_config w file_path).2 file_path =
      read_config w file_path := by
  rw [read_config_snd]

/-- Claim C8: `read_config` performs no writes and mutates no state: the
world after the call, successful or failing, is exactly the world before
it. -/
theorem read_config_no_mutation (w : World) (file_path : String) :
    (read_config w file_path).2 = w :=
  read_config_snd w file_path

/-- Claim C9: for every file whose byte content is not valid UTF-8,
`read_config` fails, and the failure carries the read-phase kind, not the
open-phase kind: decode failure is collapsed into the read failure. -/
theorem invalid_utf8_read_failure (w : World) (file_path : String)
    (fd : FileData)
    (hopen : w.files file_path = some fd)
    (hdec : utf8Decode? fd.bytes = none) :
    (read_config w file_path).1 = Except.error Panic.readFailure := by
  cases hro : fd.readOk with
  | false => simp [read_config, fileOpen, readToString, hopen, hro]
  | true => simp [read_config, fileOpen, readToString, hopen, hro, hdec]

/-- Witness for C9: the two bytes 0xFF 0xFE are not valid UTF-8, and reading
them fails with the read-phase kind. -/
theorem invalid_utf8_read_failure_witness :
    (read_config binaryWorld "config.txt").1 =
      Except.error Panic.readFailure :=
  invalid_utf8_read_failure binaryWorld "config.txt" ⟨[0xFF, 0xFE], true⟩ rfl rfl

/-- Claim C10: every run of the Entry Point prints exactly one of the two
terminal messages — the success confirmation or the generic failure message
— never both and never neither, whatever the outcome of the guarded
region. -/
theorem mainRun_one_terminal_message (w : World) :
    ((mainRun w).stdout).countP isTerminalMsg = 1 := by
  cases hr : (read_config w "config.txt").1 with
  | error p =>
    rw [mainRun_error w p hr]
    rfl
  | ok c =>
    rw [mainRun_ok w c hr]
    show List.countP isTerminalMsg
      ["Config Contents:\n" ++ c, "Config file read successfully."] = 1
    rw [List.countP_cons, header_not_terminal]
    rfl
